import Mathlib

/-!
Verification of the Session Orchestrator of
`src/frontend/.mcp-server/src/automation/cursor_automation_enhanced.py`.

The Python source is shallowly embedded: each relevant method of
`EnhancedCursorAutomation` becomes a pure Lean function over explicit state
(the `ChatSession` record and the registry), with the message bus's answer to
the single `pull` performed by a detector passed in as an `Except` value
(a raised bus exception is the `.error` case, mirroring the `try/except`
blocks of the source).  Wall-clock instants (`time.time()`) are modelled as
integers; nothing in the verified logic depends on fractional time.
-/

/-- JSON-serializable message-bus bodies (the values the Python code stores in
`item['body']`).  Dicts are association lists; Python's `str()` coercion is
modelled by `pyStr` below. -/
inductive JValue where
  | null : JValue
  | bool (b : Bool) : JValue
  | num (n : Int) : JValue
  | str (s : String) : JValue
  | obj (fields : List (String × JValue)) : JValue

/-- Python's `str()` on a body value, as used by `_detect_loop`'s
`str(item.get('body', ''))`.  Rendering of composite dict bodies abstracts
Python's quoting of keys; no verified property depends on the rendering of a
dict, only on the facts that `str` of a string is that string and that equal
values render equally (the latter holds for any function). -/
def pyStr : JValue → String
  | .null => "None"
  | .bool true => "True"
  | .bool false => "False"
  | .num n => toString n
  | .str s => s
  | .obj fs => "\x7b" ++ pyStrFields fs ++ "\x7d"
where
  pyStrFields : List (String × JValue) → String
    | [] => ""
    | [(k, v)] => k ++ ": " ++ pyStr v
    | (k, v) :: rest => k ++ ": " ++ pyStr v ++ ", " ++ pyStrFields rest

/-- One item returned by `bus.pull`.  `body` is `none` when the `'body'` key is
absent (each consumer applies its own default, as in the source). -/
structure BusItem where
  body : Option JValue

/-- The dictionary returned by `bus.pull(channel, since, limit)`:
`items` (default `[]` is already applied) and the optional `'next'` offset. -/
structure PullReply where
  items : List BusItem
  next : Option Int

/-- A bus exception (any `Exception` caught by the detectors' `try/except`). -/
structure BusErr where
  msg : String

/-- `session.last_offsets.get(channel, 0)` — Python dict lookup with default 0.
The dict is modelled as an association list with unique keys. -/
def getOffset : List (String × Int) → String → Int
  | [], _ => 0
  | (k, x) :: rest, c => if k = c then x else getOffset rest c

/-- `session.last_offsets[channel] = v` — Python dict assignment. -/
def setOffset : List (String × Int) → String → Int → List (String × Int)
  | [], c, v => [(c, v)]
  | (k, x) :: rest, c, v =>
      if k = c then (c, v) :: rest else (k, x) :: setOffset rest c v

/-- `body.get('done')` — Python dict `.get` with default `None` (modelled as
`Option`). -/
def dictGet : List (String × JValue) → String → Option JValue
  | [], _ => none
  | (k, v) :: rest, c => if k = c then some v else dictGet rest c

/-- The `ChatSession` dataclass of the source (timestamps as integers). -/
structure ChatSession where
  id : String
  role : String
  prompt_template : String
  started_at : Int
  last_activity : Int
  message_count : Nat := 0
  last_offsets : List (String × Int) := []
  loop_detected : Bool := false
  status : String := "running"
  error_count : Nat := 0
  last_error : Option String := none

/-- The `AutomationConfig` dataclass of the source. -/
structure AutomationConfig where
  max_iterations : Nat := 30
  loop_detection_threshold : Nat := 3
  inactivity_timeout : Int := 300
  check_interval : Nat := 10
  cursor_workspace : Option String := none
  enable_gui_automation : Bool := true
  log_level : String := "INFO"

/-- The string the `_detect_loop` source computes per item:
`str(item.get('body', ''))`. -/
def itemStr (it : BusItem) : String :=
  pyStr (it.body.getD (.str ""))

/-- `_detect_loop(session)`.  The bus's answer to the one
`self.mcp_bus.pull(channel, since=since, limit=5)` call is the `pull`
argument; `.error` is a raised exception, caught by the method's
`try/except` (which logs and falls through to `return False`, leaving the
session untouched).  Returns the updated session and the boolean result. -/
def detectLoop (cfg : AutomationConfig) (s : ChatSession)
    (pull : Except BusErr PullReply) : ChatSession × Bool :=
  match pull with
  | .error _ => (s, false)
  | .ok reply =>
      let channel := s.role ++ "_messages"
      let since := getOffset s.last_offsets channel
      let items := reply.items
      let s1 := { s with message_count := s.message_count + items.length }
      let s2 :=
        match reply.next with
        | some n => { s1 with last_offsets := setOffset s1.last_offsets channel n }
        | none =>
            if items.isEmpty then s1
            else { s1 with last_offsets :=
                     setOffset s1.last_offsets channel (since + items.length) }
      if cfg.loop_detection_threshold ≤ items.length then
        let recent_bodies := (items.drop (items.length - 3)).map itemStr
        let unique_messages := recent_bodies.dedup.length
        (s2, unique_messages ≤ 1)
      else
        (s2, false)

/-- The body test in `_check_completion`:
`isinstance(body, dict) and body.get('done') is True`, where
`body = item.get('body', {})`. -/
def isDoneItem (it : BusItem) : Bool :=
  match it.body.getD (.obj []) with
  | .obj fs =>
      match dictGet fs "done" with
      | some (.bool true) => true
      | _ => false
  | _ => false

/-- `_check_completion(session)`, with the bus's answer to
`self.mcp_bus.pull(channel, since=since, limit=5)` passed in (`.error` is a
raised exception, caught by the `try/except` and yielding `False` with the
session untouched). -/
def checkCompletion (s : ChatSession)
    (pull : Except BusErr PullReply) : ChatSession × Bool :=
  match pull with
  | .error _ => (s, false)
  | .ok reply =>
      let channel := s.role ++ "_status"
      let since := getOffset s.last_offsets channel
      let items := reply.items
      let s1 := { s with message_count := s.message_count + items.length }
      let s2 :=
        match reply.next with
        | some n => { s1 with last_offsets := setOffset s1.last_offsets channel n }
        | none =>
            if items.isEmpty then s1
            else { s1 with last_offsets :=
                     setOffset s1.last_offsets channel (since + items.length) }
      (s2, items.any isDoneItem)

/-- The summary dictionary built by `_save_session_summary(session, final_status)`. -/
structure SessionSummary where
  session_id : String
  role : String
  status : String
  started_at : Int
  ended_at : Int
  runtime_seconds : Int
  last_activity : Int
  message_count : Nat
  loop_detected : Bool
  error_count : Nat
  last_error : Option String
  prompt_length : Nat

/-- `_save_session_summary(session, final_status)` at instant `now`
(`time.time()`), as the artifact handed to the persistence collaborator. -/
def saveSessionSummary (s : ChatSession) (final_status : String)
    (now : Int) : SessionSummary :=
  { session_id := s.id
    role := s.role
    status := final_status
    started_at := s.started_at
    ended_at := now
    runtime_seconds := now - s.started_at
    last_activity := s.last_activity
    message_count := s.message_count
    loop_detected := s.loop_detected
    error_count := s.error_count
    last_error := s.last_error
    prompt_length := s.prompt_template.length }

/-- `_handle_loop_detection(session)`: injects the loop-breaker payload
(an external side effect), refreshes `last_activity`, bumps `error_count`
and records `last_error`.  It does not touch `status` and saves no summary. -/
def handleLoopDetection (s : ChatSession) (now : Int) : ChatSession :=
  { s with last_activity := now
           error_count := s.error_count + 1
           last_error := some "Loop detected and intervention applied" }

/-- `_monitor_single_session(session, current_time)`.  `hasBus` is the truth
value of `self.mcp_bus` in `if self.mcp_bus and self._detect_loop(session)`;
when the bus is absent, `_check_completion`'s `self.mcp_bus.pull` raises
(`None` has no `pull`), which its `try/except` catches — modelled by feeding
it an `.error`.  Returns the updated session and the list of summary
artifacts emitted to the persistence collaborator during the call. -/
def monitorSingleSession (cfg : AutomationConfig) (hasBus : Bool)
    (pullMsgs pullStatus : Except BusErr PullReply) (now : Int)
    (s : ChatSession) : ChatSession × List SessionSummary :=
  let inactive_time := now - s.last_activity
  if cfg.inactivity_timeout < inactive_time then
    let s1 := { s with status := "timeout" }
    (s1, [saveSessionSummary s1 "timeout" now])
  else
    let loopRes := if hasBus then detectLoop cfg s pullMsgs else (s, false)
    if loopRes.2 then
      let s2 := { loopRes.1 with loop_detected := true, status := "looped" }
      (handleLoopDetection s2 now, [])
    else
      let doneRes := checkCompletion loopRes.1
        (if hasBus then pullStatus else .error ⟨"AttributeError: NoneType"⟩)
      if doneRes.2 then
        let s3 := { doneRes.1 with status := "completed" }
        (s3, [saveSessionSummary s3 "completed" now])
      else
        (doneRes.1, [])

/-- The per-session body of the `monitor_sessions` cycle: only sessions whose
`status == "running"` are monitored; others are left untouched. -/
def monitorCycleSession (cfg : AutomationConfig) (hasBus : Bool)
    (pullMsgs pullStatus : Except BusErr PullReply) (now : Int)
    (s : ChatSession) : ChatSession × List SessionSummary :=
  if s.status = "running" then
    monitorSingleSession cfg hasBus pullMsgs pullStatus now s
  else
    (s, [])

/-- The per-session body of `stop_monitoring`: a `running` session is forced
to `interrupted` and exactly one summary is saved for it; any other session
is left untouched with no summary. -/
def stopSession (now : Int) (s : ChatSession) : ChatSession × List SessionSummary :=
  if s.status = "running" then
    let s1 := { s with status := "interrupted" }
    (s1, [saveSessionSummary s1 "interrupted" now])
  else
    (s, [])

/-- `stop_monitoring()` over the whole registry (`for session in
self.sessions.values()`), collecting the summaries emitted. -/
def stopMonitoring (now : Int) :
    List ChatSession → List ChatSession × List SessionSummary
  | [] => ([], [])
  | s :: rest =>
      let first := stopSession now s
      let others := stopMonitoring now rest
      (first.1 :: others.1, first.2 ++ others.2)

/-- A terminal `status` value (`completed|failed|looped|timeout|interrupted`). -/
def isTerminal (st : String) : Bool :=
  st = "completed" || st = "failed" || st = "looped" ||
  st = "timeout" || st = "interrupted"

/-- Registry lookup (`session_id not in self.sessions` / indexing). -/
def regGet : List (String × ChatSession) → String → Option ChatSession
  | [], _ => none
  | (k, v) :: rest, sid => if k = sid then some v else regGet rest sid

/-- Registry update (Python dict assignment on `self.sessions`). -/
def regSet : List (String × ChatSession) → String → ChatSession →
    List (String × ChatSession)
  | [], sid, v => [(sid, v)]
  | (k, x) :: rest, sid, v =>
      if k = sid then (sid, v) :: rest else (k, x) :: regSet rest sid v

/-- `launch_cursor_with_prompt(session_id)`, reduced to its caller-visible
outcome.  `cursorCmd` is the result of `_find_cursor_command()` and
`launchOk` the result of `_launch_cursor_application` (both external
environment facts).  An unknown id logs an error and returns `False`
(the same bare boolean as every other failure path); on success the
session's `last_activity` is refreshed. -/
def launchCursorWithPrompt (sessions : List (String × ChatSession))
    (sid : String) (cursorCmd : Option String) (launchOk : Bool)
    (now : Int) : List (String × ChatSession) × Bool :=
  match regGet sessions sid with
  | none => (sessions, false)
  | some s =>
      match cursorCmd with
      | none => (sessions, false)
      | some _ =>
          if launchOk then
            (regSet sessions sid { s with last_activity := now }, true)
          else
            (sessions, false)

/-- Outcome of one injection strategy invocation: returned `True`, returned a
falsy value, or raised an exception. -/
inductive SOutcome where
  | success : SOutcome
  | failure : SOutcome
  | raised : SOutcome
deriving DecidableEq

/-- What `_inject_prompt_with_fallbacks` makes observable: the strategies it
invoked (in order), the name of the strategy that succeeded (if any), and
whether the manual-instruction artifact was produced. -/
structure InjectResult where
  invoked : List String
  succeededWith : Option String
  manualFile : Bool
deriving DecidableEq

/-- The `for method_name, method_func in methods` loop of
`_inject_prompt_with_fallbacks`: first success returns (emitting the manual
artifact as well when that success came from `file_fallback`); an exception
is caught and the loop continues; exhaustion emits the manual artifact. -/
def injectLoop : List (String × SOutcome) → InjectResult
  | [] => { invoked := [], succeededWith := none, manualFile := true }
  | (name, o) :: rest =>
      match o with
      | .success =>
          { invoked := [name], succeededWith := some name,
            manualFile := name = "file_fallback" }
      | .failure | .raised =>
          let r := injectLoop rest
          { invoked := name :: r.invoked, succeededWith := r.succeededWith,
            manualFile := r.manualFile }

/-- `_inject_prompt_with_fallbacks(session)` with the source's fixed method
list; the four arguments are the outcomes of the four strategies
(`clipboard_linux`, `clipboard_windows`, `file_fallback`, `direct_input`)
in that order. -/
def injectPromptWithFallbacks (o1 o2 o3 o4 : SOutcome) : InjectResult :=
  injectLoop [("clipboard_linux", o1), ("clipboard_windows", o2),
              ("file_fallback", o3), ("direct_input", o4)]

/-- An exception from a strategy and a falsy return are the same to the
pipeline. -/
def normOutcome : SOutcome → SOutcome
  | .raised => .failure
  | o => o

/-- Length of the item list a pull produced (0 when the pull raised). -/
def pullItemsLen : Except BusErr PullReply → Nat
  | .error _ => 0
  | .ok r => r.items.length

/-- The §4.2 bus contract on the `'next'` offset of one pull answer, relative
to the `since` the caller passed: when `'next'` is present it is at least
`since + len(items)`. -/
def busNextOk (since : Int) (pull : Except BusErr PullReply) : Bool :=
  match pull with
  | .error _ => true
  | .ok r =>
      match r.next with
      | none => true
      | some n => since + (r.items.length : Int) ≤ n

/-- The default `AutomationConfig()` of the source. -/
def cfgDefault : AutomationConfig := {}

/-- A configuration whose loop-detection threshold exceeds the pull limit. -/
def cfgHighThreshold : AutomationConfig := { loop_detection_threshold := 7 }

/-- A freshly created running session (as `create_chat_session` builds it). -/
def sampleSession : ChatSession :=
  { id := "executor_4f2d_100", role := "executor",
    prompt_template := "build it", started_at := 0, last_activity := 0 }

/-- A session already in the terminal `looped` state. -/
def sampleLooped : ChatSession := { sampleSession with status := "looped" }

/-- A message item with a plain string body. -/
def itemX : BusItem := ⟨some (.str "same answer")⟩

/-- Message items with three pairwise distinct string bodies. -/
def itemA : BusItem := ⟨some (.str "alpha")⟩

def itemB : BusItem := ⟨some (.str "beta")⟩

def itemC : BusItem := ⟨some (.str "gamma")⟩

/-- A status item whose body is the dict `\x7b"done": true\x7d`. -/
def doneItem : BusItem := ⟨some (.obj [("done", .bool true)])⟩

/-- A pull answer carrying three identical-bodied items. -/
def loopedReply : PullReply := { items := [itemX, itemX, itemX], next := some 3 }

/-- A pull answer carrying three distinct-bodied items. -/
def distinctReply : PullReply := { items := [itemA, itemB, itemC], next := some 3 }

/-- A pull answer carrying one completion signal. -/
def doneReply : PullReply := { items := [doneItem], next := some 1 }

/-- A pull answer with nothing new. -/
def emptyReply : PullReply := { items := [], next := none }

/-- A concrete bus exception. -/
def busBoom : BusErr := ⟨"ConnectionError"⟩

/-- A one-entry registry. -/
def sampleRegistry : List (String × ChatSession) := [("sess_1", sampleSession)]

theorem getOffset_setOffset_self (m : List (String × Int)) (c : String) (v : Int) :
    getOffset (setOffset m c v) c = v := by
  induction m with
  | nil => simp [setOffset, getOffset]
  | cons kv rest ih =>
      obtain ⟨k, x⟩ := kv
      by_cases h : k = c <;> simp [setOffset, getOffset, h, ih]

theorem getOffset_setOffset_ne (m : List (String × Int)) (c c' : String) (v : Int)
    (h : c' ≠ c) :
    getOffset (setOffset m c v) c' = getOffset m c' := by
  have h' : c ≠ c' := fun he => h he.symm
  induction m with
  | nil => simp [setOffset, getOffset, h']
  | cons kv rest ih =>
      obtain ⟨k, x⟩ := kv
      by_cases hk : k = c
      · subst hk
        simp [setOffset, getOffset, h']
      · simp [setOffset, getOffset, hk, ih]

theorem detectLoop_status (cfg : AutomationConfig) (s : ChatSession)
    (pull : Except BusErr PullReply) :
    (detectLoop cfg s pull).1.status = s.status := by
  cases pull with
  | error e => rfl
  | ok reply =>
      obtain ⟨items, nxt⟩ := reply
      cases nxt <;>
        by_cases hthr : cfg.loop_detection_threshold ≤ items.length <;>
        by_cases hemp : items.isEmpty <;>
        simp [detectLoop, hthr, hemp]

theorem checkCompletion_status (s : ChatSession)
    (pull : Except BusErr PullReply) :
    (checkCompletion s pull).1.status = s.status := by
  cases pull with
  | error e => rfl
  | ok reply =>
      obtain ⟨items, nxt⟩ := reply
      cases nxt <;> by_cases hemp : items.isEmpty <;>
        simp [checkCompletion, hemp]

/-- C2: once a session's `status` is terminal
(`completed|failed|looped|timeout|interrupted`), no orchestrator operation —
a monitor cycle (which only touches `running` sessions), the loop-breaker
intervention, or `stop()` — ever changes it to any other value; in
particular no terminal status reverts to `running`. -/
theorem C2_terminal_status_frozen (cfg : AutomationConfig) (hasBus : Bool)
    (pm ps : Except BusErr PullReply) (now : Int) (s : ChatSession)
    (h : isTerminal s.status = true) :
    monitorCycleSession cfg hasBus pm ps now s = (s, []) ∧
    stopSession now s = (s, []) ∧
    (handleLoopDetection s now).status = s.status := by
  have hne : s.status ≠ "running" := by
    intro he
    rw [he] at h
    exact absurd h (by decide)
  refine ⟨?_, ?_, rfl⟩
  · simp [monitorCycleSession, hne]
  · simp [stopSession, hne]

theorem C2_witness :
    isTerminal sampleLooped.status = true ∧
    (monitorCycleSession cfgDefault true (.ok loopedReply) (.ok doneReply) 5
        sampleLooped = (sampleLooped, []) ∧
     stopSession 5 sampleLooped = (sampleLooped, []) ∧
     (handleLoopDetection sampleLooped 5).status = sampleLooped.status) :=
  ⟨by decide, C2_terminal_status_frozen cfgDefault true (.ok loopedReply)
    (.ok doneReply) 5 sampleLooped (by decide)⟩

/-- C3: per session per monitor cycle the conditions are evaluated in the
fixed priority order timeout → loop → completion; whenever the inactive time
exceeds the inactivity timeout, the resulting status is `timeout` whatever
the two pulls would have said about loops or completion. -/
theorem C3_timeout_precedence (cfg : AutomationConfig) (hasBus : Bool)
    (pm ps : Except BusErr PullReply) (now : Int) (s : ChatSession)
    (h : cfg.inactivity_timeout < now - s.last_activity) :
    (monitorSingleSession cfg hasBus pm ps now s).1.status = "timeout" ∧
    (monitorSingleSession cfg hasBus pm ps now s).2 =
      [saveSessionSummary { s with status := "timeout" } "timeout" now] := by
  constructor <;> simp [monitorSingleSession, h]

theorem C3_witness :
    cfgDefault.inactivity_timeout < 301 - sampleSession.last_activity ∧
    ((monitorSingleSession cfgDefault true (.ok loopedReply) (.ok doneReply)
        301 sampleSession).1.status = "timeout" ∧
     (monitorSingleSession cfgDefault true (.ok loopedReply) (.ok doneReply)
        301 sampleSession).2 =
       [saveSessionSummary { sampleSession with status := "timeout" }
         "timeout" 301]) :=
  ⟨by decide, C3_timeout_precedence cfgDefault true (.ok loopedReply)
    (.ok doneReply) 301 sampleSession (by decide)⟩

/-- C7: a bus exception raised during a loop-detector or completion-detector
invocation is caught and treated as a negative result for the cycle, leaving
the session untouched; a running, non-timed-out session therefore stays
`running` and is never failed by a bus error alone. -/
theorem C7_bus_error_fail_open (cfg : AutomationConfig) (hasBus : Bool)
    (now : Int) (s : ChatSession) (e1 e2 : BusErr)
    (hrun : s.status = "running")
    (hto : ¬ cfg.inactivity_timeout < now - s.last_activity) :
    detectLoop cfg s (.error e1) = (s, false) ∧
    checkCompletion s (.error e2) = (s, false) ∧
    monitorSingleSession cfg hasBus (.error e1) (.error e2) now s = (s, []) ∧
    (monitorSingleSession cfg hasBus (.error e1) (.error e2) now s).1.status =
      "running" := by
  have h3 : monitorSingleSession cfg hasBus (.error e1) (.error e2) now s =
      (s, []) := by
    cases hasBus <;> simp [monitorSingleSession, detectLoop, checkCompletion, hto]
  refine ⟨rfl, rfl, h3, ?_⟩
  rw [h3]
  exact hrun

theorem C7_witness :
    sampleSession.status = "running" ∧
    ¬ cfgDefault.inactivity_timeout < 5 - sampleSession.last_activity ∧
    (detectLoop cfgDefault sampleSession (.error busBoom) =
        (sampleSession, false) ∧
     checkCompletion sampleSession (.error busBoom) = (sampleSession, false) ∧
     monitorSingleSession cfgDefault true (.error busBoom) (.error busBoom) 5
        sampleSession = (sampleSession, []) ∧
     (monitorSingleSession cfgDefault true (.error busBoom) (.error busBoom) 5
        sampleSession).1.status = "running") :=
  ⟨rfl, by decide,
    (C7_bus_error_fail_open cfgDefault true 5 sampleSession busBoom busBoom
      rfl (by decide)).1,
    (C7_bus_error_fail_open cfgDefault true 5 sampleSession busBoom busBoom
      rfl (by decide)).2.1,
    (C7_bus_error_fail_open cfgDefault true 5 sampleSession busBoom busBoom
      rfl (by decide)).2.2.1,
    (C7_bus_error_fail_open cfgDefault true 5 sampleSession busBoom busBoom
      rfl (by decide)).2.2.2⟩

/-- C9 counterexample: `launch_cursor_with_prompt` on an unknown id returns
the bare boolean `False`, the very same caller-visible outcome as a known id
whose environment lookup fails (`_find_cursor_command()` returning `None`),
so no explicit NotFound condition is returned to the caller. -/
theorem C9_counterexample :
    (launchCursorWithPrompt [] "sess_1" (some "/usr/local/bin/cursor") true
        7).2 = false ∧
    (launchCursorWithPrompt [] "sess_1" (some "/usr/local/bin/cursor") true
        7).2 =
      (launchCursorWithPrompt sampleRegistry "sess_1" none true 7).2 :=
  ⟨rfl, rfl⟩

/-- C9 (amended): for every unknown session id, the orchestrator operation
that looks a session up by id returns failure (`False`) to the caller and
leaves the registry unchanged — the failure is reported rather than silently
swallowed, but as a generic boolean, not a distinguished NotFound value. -/
theorem C9_amended_unknown_id (sessions : List (String × ChatSession))
    (sid : String) (cursorCmd : Option String) (launchOk : Bool) (now : Int)
    (h : regGet sessions sid = none) :
    launchCursorWithPrompt sessions sid cursorCmd launchOk now =
      (sessions, false) := by
  simp [launchCursorWithPrompt, h]

theorem C9_amended_witness :
    regGet sampleRegistry "unknown_id" = none ∧
    launchCursorWithPrompt sampleRegistry "unknown_id"
        (some "/usr/local/bin/cursor") true 7 = (sampleRegistry, false) :=
  ⟨rfl, C9_amended_unknown_id sampleRegistry "unknown_id"
    (some "/usr/local/bin/cursor") true 7 rfl⟩

theorem isDoneItem_iff (it : BusItem) :
    isDoneItem it = true ↔
      ∃ fs, it.body.getD (JValue.obj []) = JValue.obj fs ∧
        dictGet fs "done" = some (JValue.bool true) := by
  unfold isDoneItem
  rcases hb : it.body.getD (JValue.obj []) with _ | b | n | s1 | fs <;>
    simp [hb]
  rcases hd : dictGet fs "done" with _ | v
  · simp
  · rcases v with _ | b | n | s1 | fs2
    · simp
    · cases b <;> simp
    · simp
    · simp
    · simp

/-- C6: the completion detector returns true iff some pulled item on the
status channel has a body that is a dict whose `done` field is the boolean
`true`; non-dict bodies, missing `done` fields and `done = false` are
ignored (and a pull exception yields false rather than an error). -/
theorem C6_completion_iff (s : ChatSession) (reply : PullReply) (e : BusErr) :
    ((checkCompletion s (.ok reply)).2 = true ↔
      ∃ it ∈ reply.items, ∃ fs,
        it.body.getD (JValue.obj []) = JValue.obj fs ∧
        dictGet fs "done" = some (JValue.bool true)) ∧
    (checkCompletion s (.error e)).2 = false := by
  refine ⟨?_, rfl⟩
  have h2 : (checkCompletion s (.ok reply)).2 = reply.items.any isDoneItem := by
    obtain ⟨items, nxt⟩ := reply
    cases nxt <;> by_cases hemp : items.isEmpty <;>
      simp [checkCompletion, hemp]
  rw [h2, List.any_eq_true]
  constructor
  · rintro ⟨it, hmem, hdone⟩
    exact ⟨it, hmem, (isDoneItem_iff it).1 hdone⟩
  · rintro ⟨it, hmem, hfs⟩
    exact ⟨it, hmem, (isDoneItem_iff it).2 hfs⟩

theorem detectLoop_fst_ok (cfg : AutomationConfig) (s : ChatSession)
    (items : List BusItem) (nxt : Option Int) :
    (detectLoop cfg s (.ok ⟨items, nxt⟩)).1.last_offsets =
      (match nxt with
       | some n => setOffset s.last_offsets (s.role ++ "_messages") n
       | none =>
           if items.isEmpty then s.last_offsets
           else setOffset s.last_offsets (s.role ++ "_messages")
             (getOffset s.last_offsets (s.role ++ "_messages") +
               items.length)) := by
  cases nxt <;> by_cases hthr : cfg.loop_detection_threshold ≤ items.length <;>
    by_cases hemp : items.isEmpty <;> simp [detectLoop, hthr, hemp]

theorem checkCompletion_fst_ok (s : ChatSession)
    (items : List BusItem) (nxt : Option Int) :
    (checkCompletion s (.ok ⟨items, nxt⟩)).1.last_offsets =
      (match nxt with
       | some n => setOffset s.last_offsets (s.role ++ "_status") n
       | none =>
           if items.isEmpty then s.last_offsets
           else setOffset s.last_offsets (s.role ++ "_status")
             (getOffset s.last_offsets (s.role ++ "_status") +
               items.length)) := by
  cases nxt <;> by_cases hemp : items.isEmpty <;>
    simp [checkCompletion, hemp]

/-- C5: across one loop-detector and one completion-detector invocation the
stored per-channel offsets are non-decreasing, provided the bus-supplied
`next` offset (when present) honours the §4.2 contract; when `next` is
present the offset is set to it, when it is absent and items were returned
the offset is set to `since + len(items)`, and channels other than the one
pulled are untouched. -/
theorem C5_offset_monotone (cfg : AutomationConfig) (s : ChatSession)
    (pm ps : Except BusErr PullReply)
    (hm : busNextOk (getOffset s.last_offsets (s.role ++ "_messages")) pm = true)
    (hs : busNextOk (getOffset s.last_offsets (s.role ++ "_status")) ps = true) :
    (getOffset s.last_offsets (s.role ++ "_messages") ≤
       getOffset (detectLoop cfg s pm).1.last_offsets (s.role ++ "_messages")) ∧
    (∀ c, c ≠ s.role ++ "_messages" →
       getOffset (detectLoop cfg s pm).1.last_offsets c =
         getOffset s.last_offsets c) ∧
    (∀ reply, pm = .ok reply → reply.items ≠ [] →
       getOffset (detectLoop cfg s pm).1.last_offsets (s.role ++ "_messages") =
         (reply.next.getD
           (getOffset s.last_offsets (s.role ++ "_messages") +
             reply.items.length))) ∧
    (getOffset s.last_offsets (s.role ++ "_status") ≤
       getOffset (checkCompletion s ps).1.last_offsets (s.role ++ "_status")) ∧
    (∀ c, c ≠ s.role ++ "_status" →
       getOffset (checkCompletion s ps).1.last_offsets c =
         getOffset s.last_offsets c) ∧
    (∀ reply, ps = .ok reply → reply.items ≠ [] →
       getOffset (checkCompletion s ps).1.last_offsets (s.role ++ "_status") =
         (reply.next.getD
           (getOffset s.last_offsets (s.role ++ "_status") +
             reply.items.length))) := by
  refine ⟨?_, ?_, ?_, ?_, ?_, ?_⟩
  · cases pm with
    | error e => exact le_refl _
    | ok reply =>
        obtain ⟨items, nxt⟩ := reply
        rw [detectLoop_fst_ok]
        cases nxt with
        | none =>
            by_cases hemp : items.isEmpty
            · simp [hemp]
            · simp only [hemp, Bool.false_eq_true, if_false,
                getOffset_setOffset_self]
              omega
        | some n =>
            simp only [busNextOk, decide_eq_true_eq] at hm
            simp only [getOffset_setOffset_self]
            omega
  · intro c hc
    cases pm with
    | error e => rfl
    | ok reply =>
        obtain ⟨items, nxt⟩ := reply
        rw [detectLoop_fst_ok]
        cases nxt with
        | none =>
            by_cases hemp : items.isEmpty
            · simp [hemp]
            · simp only [hemp, Bool.false_eq_true, if_false]
              exact getOffset_setOffset_ne _ _ _ _ hc
        | some n => exact getOffset_setOffset_ne _ _ _ _ hc
  · rintro reply rfl hne
    obtain ⟨items, nxt⟩ := reply
    rw [detectLoop_fst_ok]
    cases nxt with
    | none =>
        cases items with
        | nil => exact absurd rfl hne
        | cons a l => simp [List.isEmpty, getOffset_setOffset_self]
    | some n => simp [getOffset_setOffset_self]
  · cases ps with
    | error e => exact le_refl _
    | ok reply =>
        obtain ⟨items, nxt⟩ := reply
        rw [checkCompletion_fst_ok]
        cases nxt with
        | none =>
            by_cases hemp : items.isEmpty
            · simp [hemp]
            · simp only [hemp, Bool.false_eq_true, if_false,
                getOffset_setOffset_self]
              omega
        | some n =>
            simp only [busNextOk, decide_eq_true_eq] at hs
            simp only [getOffset_setOffset_self]
            omega
  · intro c hc
    cases ps with
    | error e => rfl
    | ok reply =>
        obtain ⟨items, nxt⟩ := reply
        rw [checkCompletion_fst_ok]
        cases nxt with
        | none =>
            by_cases hemp : items.isEmpty
            · simp [hemp]
            · simp only [hemp, Bool.false_eq_true, if_false]
              exact getOffset_setOffset_ne _ _ _ _ hc
        | some n => exact getOffset_setOffset_ne _ _ _ _ hc
  · rintro reply rfl hne
    obtain ⟨items, nxt⟩ := reply
    rw [checkCompletion_fst_ok]
    cases nxt with
    | none =>
        cases items with
        | nil => exact absurd rfl hne
        | cons a l => simp [List.isEmpty, getOffset_setOffset_self]
    | some n => simp [getOffset_setOffset_self]

theorem C5_witness :
    busNextOk (getOffset sampleSession.last_offsets
        (sampleSession.role ++ "_messages")) (.ok loopedReply) = true ∧
    busNextOk (getOffset sampleSession.last_offsets
        (sampleSession.role ++ "_status")) (.ok doneReply) = true ∧
    ((getOffset sampleSession.last_offsets (sampleSession.role ++ "_messages") ≤
        getOffset (detectLoop cfgDefault sampleSession
          (.ok loopedReply)).1.last_offsets
          (sampleSession.role ++ "_messages")) ∧
     (∀ c, c ≠ sampleSession.role ++ "_messages" →
        getOffset (detectLoop cfgDefault sampleSession
          (.ok loopedReply)).1.last_offsets c =
          getOffset sampleSession.last_offsets c) ∧
     (∀ reply, (Except.ok loopedReply : Except BusErr PullReply) = .ok reply →
        reply.items ≠ [] →
        getOffset (detectLoop cfgDefault sampleSession
          (.ok loopedReply)).1.last_offsets
          (sampleSession.role ++ "_messages") =
          (reply.next.getD
            (getOffset sampleSession.last_offsets
              (sampleSession.role ++ "_messages") + reply.items.length))) ∧
     (getOffset sampleSession.last_offsets (sampleSession.role ++ "_status") ≤
        getOffset (checkCompletion sampleSession
          (.ok doneReply)).1.last_offsets (sampleSession.role ++ "_status")) ∧
     (∀ c, c ≠ sampleSession.role ++ "_status" →
        getOffset (checkCompletion sampleSession
          (.ok doneReply)).1.last_offsets c =
          getOffset sampleSession.last_offsets c) ∧
     (∀ reply, (Except.ok doneReply : Except BusErr PullReply) = .ok reply →
        reply.items ≠ [] →
        getOffset (checkCompletion sampleSession
          (.ok doneReply)).1.last_offsets (sampleSession.role ++ "_status") =
          (reply.next.getD
            (getOffset sampleSession.last_offsets
              (sampleSession.role ++ "_status") + reply.items.length)))) :=
  ⟨by decide, by decide,
    C5_offset_monotone cfgDefault sampleSession (.ok loopedReply)
      (.ok doneReply) (by decide) (by decide)⟩

theorem detectLoop_snd_ok (cfg : AutomationConfig) (s : ChatSession)
    (items : List BusItem) (nxt : Option Int)
    (h : cfg.loop_detection_threshold ≤ items.length) :
    (detectLoop cfg s (.ok ⟨items, nxt⟩)).2 =
      decide (((items.drop (items.length - 3)).map itemStr).dedup.length ≤ 1) := by
  cases nxt <;> by_cases hemp : items.isEmpty <;>
    simp [detectLoop, h, hemp]

/-- C4: with `loopDetectionThreshold ≤ 3`, a loop-detector invocation that
pulls 3 or more new items returns true when the last 3 bodies coerce to one
and the same string, and false when they coerce to 3 pairwise distinct
strings. -/
theorem C4_loop_detection_threshold3 (cfg : AutomationConfig)
    (s : ChatSession) (nxt : Option Int) (pre : List BusItem)
    (i1 i2 i3 : BusItem)
    (hthr : cfg.loop_detection_threshold ≤ 3) :
    (itemStr i1 = itemStr i3 → itemStr i2 = itemStr i3 →
      (detectLoop cfg s (.ok ⟨pre ++ [i1, i2, i3], nxt⟩)).2 = true) ∧
    (itemStr i1 ≠ itemStr i2 → itemStr i1 ≠ itemStr i3 →
      itemStr i2 ≠ itemStr i3 →
      (detectLoop cfg s (.ok ⟨pre ++ [i1, i2, i3], nxt⟩)).2 = false) := by
  have hlen : (pre ++ [i1, i2, i3]).length = pre.length + 3 := by simp
  have hge : cfg.loop_detection_threshold ≤ (pre ++ [i1, i2, i3]).length := by
    rw [hlen]; omega
  have hdrop : (pre ++ [i1, i2, i3]).drop ((pre ++ [i1, i2, i3]).length - 3) =
      [i1, i2, i3] := by
    rw [hlen, Nat.add_sub_cancel]
    exact List.drop_left pre [i1, i2, i3]
  rw [detectLoop_snd_ok cfg s _ nxt hge]
  constructor
  · intro h13 h23
    rw [hdrop]
    simp only [List.map_cons, List.map_nil, h13, h23]
    have hd : ([itemStr i3, itemStr i3, itemStr i3] : List String).dedup =
        [itemStr i3] := by
      rw [List.dedup_cons_of_mem (by simp), List.dedup_cons_of_mem (by simp),
        List.dedup_cons_of_not_mem (by simp), List.dedup_nil]
    simp [hd]
  · intro h12 h13 h23
    rw [hdrop]
    simp only [List.map_cons, List.map_nil]
    have hd : ([itemStr i1, itemStr i2, itemStr i3] : List String).dedup =
        [itemStr i1, itemStr i2, itemStr i3] := by
      rw [List.dedup_cons_of_not_mem (by simp [h12, h13]),
        List.dedup_cons_of_not_mem (by simp [h23]),
        List.dedup_cons_of_not_mem (by simp), List.dedup_nil]
    simp [hd]

theorem C4_witness :
    cfgDefault.loop_detection_threshold ≤ 3 ∧
    ((itemStr itemX = itemStr itemX → itemStr itemX = itemStr itemX →
        (detectLoop cfgDefault sampleSession
          (.ok ⟨[] ++ [itemX, itemX, itemX], some 3⟩)).2 = true) ∧
     (itemStr itemX ≠ itemStr itemX → itemStr itemX ≠ itemStr itemX →
        itemStr itemX ≠ itemStr itemX →
        (detectLoop cfgDefault sampleSession
          (.ok ⟨[] ++ [itemX, itemX, itemX], some 3⟩)).2 = false)) :=
  ⟨by decide, C4_loop_detection_threshold3 cfgDefault sampleSession (some 3)
    [] itemX itemX itemX (by decide)⟩

/-- C10: when `loopDetectionThreshold > 5` and the bus honours the requested
pull limit of 5 items, the loop detector always returns false, so no running
session can ever transition to `looped`. -/
theorem C10_high_threshold_never_looped (cfg : AutomationConfig)
    (hasBus : Bool) (pm ps : Except BusErr PullReply) (now : Int)
    (s : ChatSession)
    (hthr : 5 < cfg.loop_detection_threshold)
    (hlim : pullItemsLen pm ≤ 5)
    (hrun : s.status = "running") :
    (detectLoop cfg s pm).2 = false ∧
    (monitorSingleSession cfg hasBus pm ps now s).1.status ≠ "looped" := by
  have hdl : (detectLoop cfg s pm).2 = false := by
    cases pm with
    | error e => rfl
    | ok reply =>
        obtain ⟨items, nxt⟩ := reply
        have hlt : ¬ cfg.loop_detection_threshold ≤ items.length := by
          simp only [pullItemsLen] at hlim
          omega
        cases nxt <;> by_cases hemp : items.isEmpty <;>
          simp [detectLoop, hlt, hemp]
  refine ⟨hdl, ?_⟩
  cases hasBus with
  | false =>
      by_cases ht : cfg.inactivity_timeout < now - s.last_activity <;>
        simp [monitorSingleSession, ht, checkCompletion, hrun]
  | true =>
      by_cases ht : cfg.inactivity_timeout < now - s.last_activity
      · simp [monitorSingleSession, ht]
      · cases hd : (checkCompletion (detectLoop cfg s pm).1 ps).2
        · simp [monitorSingleSession, ht, hdl, hd, checkCompletion_status,
            detectLoop_status, hrun]
        · simp [monitorSingleSession, ht, hdl, hd]

theorem C10_witness :
    5 < cfgHighThreshold.loop_detection_threshold ∧
    pullItemsLen (.ok loopedReply) ≤ 5 ∧
    sampleSession.status = "running" ∧
    ((detectLoop cfgHighThreshold sampleSession (.ok loopedReply)).2 = false ∧
     (monitorSingleSession cfgHighThreshold true (.ok loopedReply)
        (.ok emptyReply) 5 sampleSession).1.status ≠ "looped") :=
  ⟨by decide, by decide, rfl,
    C10_high_threshold_never_looped cfgHighThreshold true (.ok loopedReply)
      (.ok emptyReply) 5 sampleSession (by decide) (by decide) rfl⟩

/-- C8: the injection pipeline invokes its strategies in the fixed order
(`clipboard_linux`, `clipboard_windows`, `file_fallback`, `direct_input`),
stops at the first strategy that returns success without invoking any later
one, treats a raised exception exactly like a returned failure, and emits
the manual-instruction artifact exactly when all strategies fail or when the
file-based fallback is the strategy that succeeds. -/
theorem C8_injection_pipeline (o1 o2 o3 o4 : SOutcome) :
    (injectPromptWithFallbacks o1 o2 o3 o4).invoked =
      (if o1 = .success then ["clipboard_linux"]
       else if o2 = .success then ["clipboard_linux", "clipboard_windows"]
       else if o3 = .success then
         ["clipboard_linux", "clipboard_windows", "file_fallback"]
       else
         ["clipboard_linux", "clipboard_windows", "file_fallback",
           "direct_input"]) ∧
    (injectPromptWithFallbacks o1 o2 o3 o4).succeededWith =
      (if o1 = .success then some "clipboard_linux"
       else if o2 = .success then some "clipboard_windows"
       else if o3 = .success then some "file_fallback"
       else if o4 = .success then some "direct_input"
       else none) ∧
    injectPromptWithFallbacks (normOutcome o1) (normOutcome o2)
      (normOutcome o3) (normOutcome o4) =
      injectPromptWithFallbacks o1 o2 o3 o4 ∧
    (injectPromptWithFallbacks o1 o2 o3 o4).manualFile =
      (if o1 = .success then false
       else if o2 = .success then false
       else if o3 = .success then true
       else if o4 = .success then false
       else true) := by
  cases o1 <;> cases o2 <;> cases o3 <;> cases o4 <;> decide

theorem stopMonitoring_count (now : Int) (l : List ChatSession) :
    (stopMonitoring now l).2.length =
      (l.filter (fun x => x.status = "running")).length := by
  induction l with
  | nil => rfl
  | cons s rest ih =>
      by_cases h : s.status = "running" <;>
        simp [stopMonitoring, stopSession, h, ih]

theorem stopMonitoring_status (now : Int) (l : List ChatSession) :
    ∀ a ∈ (stopMonitoring now l).2, a.status = "interrupted" := by
  induction l with
  | nil =>
      intro a ha
      simp [stopMonitoring] at ha
  | cons s rest ih =>
      intro a ha
      by_cases h : s.status = "running"
      · simp only [stopMonitoring, stopSession, if_pos h, List.cons_append,
          List.nil_append, List.mem_cons] at ha
        rcases ha with ha | ha
        · rw [ha]
          rfl
        · exact ih a ha
      · simp only [stopMonitoring, stopSession, if_neg h,
          List.nil_append] at ha
        exact ih a ha

/-- C1 counterexample: a running session that trips the loop detector
transitions to the terminal status `looped`, yet zero session-summary
artifacts are emitted — `_handle_loop_detection` never calls
`_save_session_summary`. -/
theorem C1_looped_no_summary_counterexample :
    (monitorSingleSession cfgDefault true (.ok loopedReply) (.ok emptyReply)
        0 sampleSession).1.status = "looped" ∧
    (monitorSingleSession cfgDefault true (.ok loopedReply) (.ok emptyReply)
        0 sampleSession).2 = [] := by
  constructor <;> rfl

/-- C1 (amended): terminal transitions to `timeout` and `completed` during a
monitor cycle each emit exactly one summary artifact, and every session
still `running` when `stop()` is called becomes `interrupted` with exactly
one `interrupted` summary; a transition to `looped`, however, emits no
summary at all. -/
theorem C1_terminal_transition_summaries (cfg : AutomationConfig)
    (hasBus : Bool) (pm ps : Except BusErr PullReply) (now : Int)
    (s : ChatSession) (sessions : List ChatSession)
    (hrun : s.status = "running") :
    ((monitorSingleSession cfg hasBus pm ps now s).1.status = "timeout" →
      (monitorSingleSession cfg hasBus pm ps now s).2 =
        [saveSessionSummary (monitorSingleSession cfg hasBus pm ps now s).1
          "timeout" now]) ∧
    ((monitorSingleSession cfg hasBus pm ps now s).1.status = "completed" →
      (monitorSingleSession cfg hasBus pm ps now s).2 =
        [saveSessionSummary (monitorSingleSession cfg hasBus pm ps now s).1
          "completed" now]) ∧
    ((monitorSingleSession cfg hasBus pm ps now s).1.status = "looped" →
      (monitorSingleSession cfg hasBus pm ps now s).2 = []) ∧
    ((monitorSingleSession cfg hasBus pm ps now s).1.status = "running" →
      (monitorSingleSession cfg hasBus pm ps now s).2 = []) ∧
    stopSession now s =
      ({ s with status := "interrupted" },
       [saveSessionSummary { s with status := "interrupted" }
         "interrupted" now]) ∧
    (stopMonitoring now sessions).2.length =
      (sessions.filter (fun x => x.status = "running")).length ∧
    (∀ a ∈ (stopMonitoring now sessions).2, a.status = "interrupted") := by
  have H : (monitorSingleSession cfg hasBus pm ps now s =
      ({ s with status := "timeout" },
       [saveSessionSummary { s with status := "timeout" } "timeout" now])) ∨
      ((monitorSingleSession cfg hasBus pm ps now s).1.status = "looped" ∧
       (monitorSingleSession cfg hasBus pm ps now s).2 = []) ∨
      ((monitorSingleSession cfg hasBus pm ps now s).1.status = "completed" ∧
       (monitorSingleSession cfg hasBus pm ps now s).2 =
         [saveSessionSummary (monitorSingleSession cfg hasBus pm ps now s).1
           "completed" now]) ∨
      ((monitorSingleSession cfg hasBus pm ps now s).1.status = "running" ∧
       (monitorSingleSession cfg hasBus pm ps now s).2 = []) := by
    by_cases ht : cfg.inactivity_timeout < now - s.last_activity
    · left
      simp [monitorSingleSession, ht]
    · cases hasBus with
      | false =>
          right; right; right
          constructor <;>
            simp [monitorSingleSession, ht, checkCompletion, hrun]
      | true =>
          cases hl : (detectLoop cfg s pm).2 with
          | true =>
              right; left
              constructor <;>
                simp [monitorSingleSession, ht, hl, handleLoopDetection]
          | false =>
              cases hd : (checkCompletion (detectLoop cfg s pm).1 ps).2 with
              | true =>
                  right; right; left
                  constructor <;> simp [monitorSingleSession, ht, hl, hd]
              | false =>
                  right; right; right
                  constructor <;>
                    simp [monitorSingleSession, ht, hl, hd,
                      checkCompletion_status, detectLoop_status, hrun]
  refine ⟨?_, ?_, ?_, ?_, by simp [stopSession, hrun],
    stopMonitoring_count now sessions, stopMonitoring_status now sessions⟩
  · intro hst
    rcases H with H | ⟨h1, _⟩ | ⟨h1, _⟩ | ⟨h1, _⟩
    · rw [H]
    · rw [h1] at hst
      exact absurd hst (by decide)
    · rw [h1] at hst
      exact absurd hst (by decide)
    · rw [h1] at hst
      exact absurd hst (by decide)
  · intro hst
    rcases H with H | ⟨h1, _⟩ | ⟨h1, h2⟩ | ⟨h1, _⟩
    · rw [H] at hst
      simp at hst
    · rw [h1] at hst
      exact absurd hst (by decide)
    · exact h2
    · rw [h1] at hst
      exact absurd hst (by decide)
  · intro hst
    rcases H with H | ⟨h1, h2⟩ | ⟨h1, _⟩ | ⟨h1, _⟩
    · rw [H] at hst
      simp at hst
    · exact h2
    · rw [h1] at hst
      exact absurd hst (by decide)
    · rw [h1] at hst
      exact absurd hst (by decide)
  · intro hst
    rcases H with H | ⟨h1, _⟩ | ⟨h1, _⟩ | ⟨h1, h2⟩
    · rw [H] at hst
      simp at hst
    · rw [h1] at hst
      exact absurd hst (by decide)
    · rw [h1] at hst
      exact absurd hst (by decide)
    · exact h2

theorem C1_witness :
    sampleSession.status = "running" ∧
    (((monitorSingleSession cfgDefault true (.ok emptyReply) (.ok doneReply)
          5 sampleSession).1.status = "timeout" →
       (monitorSingleSession cfgDefault true (.ok emptyReply) (.ok doneReply)
          5 sampleSession).2 =
         [saveSessionSummary (monitorSingleSession cfgDefault true
            (.ok emptyReply) (.ok doneReply) 5 sampleSession).1
           "timeout" 5]) ∧
     ((monitorSingleSession cfgDefault true (.ok emptyReply) (.ok doneReply)
          5 sampleSession).1.status = "completed" →
       (monitorSingleSession cfgDefault true (.ok emptyReply) (.ok doneReply)
          5 sampleSession).2 =
         [saveSessionSummary (monitorSingleSession cfgDefault true
            (.ok emptyReply) (.ok doneReply) 5 sampleSession).1
           "completed" 5]) ∧
     ((monitorSingleSession cfgDefault true (.ok emptyReply) (.ok doneReply)
          5 sampleSession).1.status = "looped" →
       (monitorSingleSession cfgDefault true (.ok emptyReply) (.ok doneReply)
          5 sampleSession).2 = []) ∧
     ((monitorSingleSession cfgDefault true (.ok emptyReply) (.ok doneReply)
          5 sampleSession).1.status = "running" →
       (monitorSingleSession cfgDefault true (.ok emptyReply) (.ok doneReply)
          5 sampleSession).2 = []) ∧
     stopSession 5 sampleSession =
       ({ sampleSession with status := "interrupted" },
        [saveSessionSummary { sampleSession with status := "interrupted" }
          "interrupted" 5]) ∧
     (stopMonitoring 5 [sampleSession, sampleLooped]).2.length =
       ([sampleSession, sampleLooped].filter
         (fun x => x.status = "running")).length ∧
     (∀ a ∈ (stopMonitoring 5 [sampleSession, sampleLooped]).2,
        a.status = "interrupted")) :=
  ⟨rfl, C1_terminal_transition_summaries cfgDefault true (.ok emptyReply)
    (.ok doneReply) 5 sampleSession [sampleSession, sampleLooped] rfl⟩
